import Mathlib

/-!
Verification of the impact-metric formula layer of `app_p1_2.py`
(visualizador-p1-2), a slider-driven impact calculator for project P1.2.

The script reads four slider inputs (annual plum production in ton,
sorbate-reduction percentage, avoided-PDA percentage, export price in
USD/ton), combines them with fixed constants taken from the project data
table `data_p12`, computes five impact metrics, and renders them as text
metrics and paired bar charts, with individually downloadable PNG copies
and a best-effort remote logo section.

All Python floats involved are exact decimal values and the computation is
plain field arithmetic, so the formulas are embedded over `ℚ`.
-/

/-- Conventional sorbate dose in g/kg: `data_p12["dosis_sorbato_conv_g_kg"][0]`,
read in the script as `df_diagnostico_p12.loc[0, 'dosis_sorbato_conv_g_kg']`. -/
def dosis_conv_g_kg : ℚ := 4

/-- Optimized sorbate dose recomputed from the slider:
`dosis_conv_g_kg * (1 - porcentaje_reduccion_sorbato / 100)`. -/
def dosis_optim_g_kg_calculada (porcentaje_reduccion_sorbato : ℚ) : ℚ :=
  dosis_conv_g_kg * (1 - porcentaje_reduccion_sorbato / 100)

/-- Sorbate reduction displayed as "Reducción en Uso de Sorbato" (kg/año):
`(dosis_conv_g_kg - dosis_optim_g_kg_calculada) * produccion_anual / 1000`. -/
def reduccion_sorbato_kg_ano (produccion_anual porcentaje_reduccion_sorbato : ℚ) : ℚ :=
  (dosis_conv_g_kg - dosis_optim_g_kg_calculada porcentaje_reduccion_sorbato) *
    produccion_anual / 1000

/-- Sorbate price in USD/kg: `data_p12["precio_sorbato_usd_kg"][2]`, read as
`df_diagnostico_p12.loc[2, 'precio_sorbato_usd_kg']`. -/
def precio_sorbato_usd_kg : ℚ := 5

/-- The local variable `precio_sorbato` of the script. -/
def precio_sorbato : ℚ := precio_sorbato_usd_kg

/-- Cost savings displayed as "Ahorro en Costos por Sorbato" (USD/año):
`reduccion_sorbato_kg_año * precio_sorbato`. -/
def ahorro_costos_sorbato_usd_ano (produccion_anual porcentaje_reduccion_sorbato : ℚ) : ℚ :=
  reduccion_sorbato_kg_ano produccion_anual porcentaje_reduccion_sorbato * precio_sorbato

/-- Avoided food loss displayed as "PDA Evitado" (ton/año):
`(porcentaje_devoluciones_evitadas / 100) * produccion_anual`. -/
def pda_evitada_ton_ano (produccion_anual porcentaje_devoluciones_evitadas : ℚ) : ℚ :=
  (porcentaje_devoluciones_evitadas / 100) * produccion_anual

/-- Transport distance in km: `data_p12["distancia_transporte_km"][1]`. -/
def distancia_transporte_km : ℚ := 12000

/-- Emission factor in tCO₂e per ton-km: `data_p12["factor_emision_co2e_ton_km"][1]`,
the Python float `0.01`. -/
def factor_emision_co2e_ton_km : ℚ := 1 / 100

/-- Avoided emissions displayed as "GEI Evitados" (tCO₂e/año):
`pda_evitada_ton_año * (distancia_transporte_km * factor_emision_co2e_ton_km)`. -/
def gei_evitados_tco2e_ano (produccion_anual porcentaje_devoluciones_evitadas : ℚ) : ℚ :=
  pda_evitada_ton_ano produccion_anual porcentaje_devoluciones_evitadas *
    (distancia_transporte_km * factor_emision_co2e_ton_km)

/-- Avoided revenue loss displayed as "Pérdidas Económicas Asociadas a PDA
Evitada" (USD/año): `pda_evitada_ton_año * precio_ciruela`, using the slider
value `precio_ciruela`, not the table entry. -/
def perdidas_economicas_pda_evitada_usd_ano
    (produccion_anual porcentaje_devoluciones_evitadas precio_ciruela : ℚ) : ℚ :=
  pda_evitada_ton_ano produccion_anual porcentaje_devoluciones_evitadas * precio_ciruela

/-- Reference export price stored in the data table:
`data_p12["precio_ciruela_exportacion_usd_ton"][4]`. It is not used by the
revenue-loss calculation. -/
def precio_ciruela_exportacion_usd_ton_tabla : ℚ := 3200

/-- The four slider inputs of the sidebar, in source order. -/
structure Inputs where
  produccion_anual : ℚ
  porcentaje_reduccion_sorbato : ℚ
  porcentaje_devoluciones_evitadas : ℚ
  precio_ciruela : ℚ

/-- The five displayed metrics, in the order of the `data_p12` indicator list:
sorbate reduction (kg/año), avoided emissions (tCO₂e/año), sorbate cost
savings (USD/año), avoided PDA (ton/año), avoided economic losses (USD/año). -/
def metrics (i : Inputs) : ℚ × ℚ × ℚ × ℚ × ℚ :=
  (reduccion_sorbato_kg_ano i.produccion_anual i.porcentaje_reduccion_sorbato,
   gei_evitados_tco2e_ano i.produccion_anual i.porcentaje_devoluciones_evitadas,
   ahorro_costos_sorbato_usd_ano i.produccion_anual i.porcentaje_reduccion_sorbato,
   pda_evitada_ton_ano i.produccion_anual i.porcentaje_devoluciones_evitadas,
   perdidas_economicas_pda_evitada_usd_ano i.produccion_anual
     i.porcentaje_devoluciones_evitadas i.precio_ciruela)

/-- Chart baseline `reduccion_sorbato_base_ejemplo` of the script. -/
def reduccion_sorbato_base_ejemplo : ℚ := 0

/-- Chart baseline `pda_evitada_base_ejemplo` of the script. -/
def pda_evitada_base_ejemplo : ℚ := 0

/-- Chart baseline `perdidas_economicas_pda_base_ejemplo` of the script. -/
def perdidas_economicas_pda_base_ejemplo : ℚ := 0

/-- Bar heights `[reduccion_sorbato_base_ejemplo, reduccion_sorbato_kg_año]`
of the sorbate chart, indexed by labels `['Línea Base', 'Proyección']`. -/
def sorbato_values (produccion_anual porcentaje_reduccion_sorbato : ℚ) : List ℚ :=
  [reduccion_sorbato_base_ejemplo,
   reduccion_sorbato_kg_ano produccion_anual porcentaje_reduccion_sorbato]

/-- Bar heights `[pda_evitada_base_ejemplo, pda_evitada_ton_año]` of the PDA
chart. -/
def pda_values (produccion_anual porcentaje_devoluciones_evitadas : ℚ) : List ℚ :=
  [pda_evitada_base_ejemplo,
   pda_evitada_ton_ano produccion_anual porcentaje_devoluciones_evitadas]

/-- Bar heights `[perdidas_economicas_pda_base_ejemplo,
perdidas_economicas_pda_evitada_usd_año]` of the economic-losses chart. -/
def perdidas_eco_values
    (produccion_anual porcentaje_devoluciones_evitadas precio_ciruela : ℚ) : List ℚ :=
  [perdidas_economicas_pda_base_ejemplo,
   perdidas_economicas_pda_evitada_usd_ano produccion_anual
     porcentaje_devoluciones_evitadas precio_ciruela]

/-- Bar heights the on-screen composite figure passes to `ax1.bar`. -/
def composite_sorbato_bars (produccion_anual porcentaje_reduccion_sorbato : ℚ) : List ℚ :=
  sorbato_values produccion_anual porcentaje_reduccion_sorbato

/-- Bar heights the on-screen composite figure passes to `ax2.bar`. -/
def composite_pda_bars (produccion_anual porcentaje_devoluciones_evitadas : ℚ) : List ℚ :=
  pda_values produccion_anual porcentaje_devoluciones_evitadas

/-- Bar heights the on-screen composite figure passes to `ax3.bar`. -/
def composite_perdidas_bars
    (produccion_anual porcentaje_devoluciones_evitadas precio_ciruela : ℚ) : List ℚ :=
  perdidas_eco_values produccion_anual porcentaje_devoluciones_evitadas precio_ciruela

/-- Bar heights the downloadable figure `fig_sorbato` passes to `ax_sorbato.bar`. -/
def fig_sorbato_bars (produccion_anual porcentaje_reduccion_sorbato : ℚ) : List ℚ :=
  sorbato_values produccion_anual porcentaje_reduccion_sorbato

/-- Bar heights the downloadable figure `fig_pda` passes to `ax_pda.bar`. -/
def fig_pda_bars (produccion_anual porcentaje_devoluciones_evitadas : ℚ) : List ℚ :=
  pda_values produccion_anual porcentaje_devoluciones_evitadas

/-- Bar heights the downloadable figure `fig_perdidas_eco` passes to
`ax_perdidas_eco.bar`. -/
def fig_perdidas_eco_bars
    (produccion_anual porcentaje_devoluciones_evitadas precio_ciruela : ℚ) : List ℚ :=
  perdidas_eco_values produccion_anual porcentaje_devoluciones_evitadas precio_ciruela

/-- How the logo fetch/decode block can fail: `requests.exceptions.RequestException`
with message `e`, or any other exception with message `e`. -/
inductive LogoFailure where
  | request (e : String)
  | other (e : String)

/-- Text of the `st.error` call for each except branch of the logo block. -/
def logoErrorText : LogoFailure → String
  | LogoFailure.request e =>
      "Error al cargar los logos desde las URLs. Por favor, verifica los enlaces: " ++ e
  | LogoFailure.other e =>
      "Error inesperado al procesar las imágenes de los logos: " ++ e

/-- What the logo section renders: the two images via `st.image`, or one
`st.error` message. Image bytes are abstracted as `Nat` codes. -/
inductive LogoSection where
  | images (imgs : List Nat)
  | errorMessage (msg : String)

/-- The try/except around the two logo fetches: on success both images are
shown, on any failure the matching error text is shown. -/
def renderLogoSection : Except LogoFailure (Nat × Nat) → LogoSection
  | Except.ok (a, b) => LogoSection.images [a, b]
  | Except.error f => LogoSection.errorMessage (logoErrorText f)

/-- Everything the page produces that the claims are about: the five metric
values, the three charts, the three download-button file names, and the logo
section. -/
structure PageOutput where
  metricValues : ℚ × ℚ × ℚ × ℚ × ℚ
  charts : List (List ℚ)
  downloadNames : List String
  logoSection : LogoSection

/-- One top-to-bottom run of the script: metrics and charts are computed from
the sliders alone, then the logo block runs with fetch outcome `logoRes`. -/
def renderPage (i : Inputs) (logoRes : Except LogoFailure (Nat × Nat)) : PageOutput :=
  { metricValues := metrics i,
    charts :=
      [sorbato_values i.produccion_anual i.porcentaje_reduccion_sorbato,
       pda_values i.produccion_anual i.porcentaje_devoluciones_evitadas,
       perdidas_eco_values i.produccion_anual i.porcentaje_devoluciones_evitadas
         i.precio_ciruela],
    downloadNames :=
      ["Reduccion_Sorbato.png", "PDA_Evitado.png", "Perdidas_Economicas_Evitadas_PDA.png"],
    logoSection := renderLogoSection logoRes }

/-- C1: the claim states the displayed sorbate-reduction metric equals
4·(r/100)·P kg/year, e.g. 4000 at r = 40, P = 2500. The code instead divides
by a further factor of 1000 (its comment announces a g/kg → kg/ton
conversion, which is a factor of 1), so at the default sliders it computes 4,
while the correct annual mass 4·(40/100)·2500 is 4000. -/
theorem C1_code_value_at_default :
    reduccion_sorbato_kg_ano 2500 40 = 4 ∧
      dosis_conv_g_kg * (40 / 100) * 2500 = 4000 := by
  constructor
  · norm_num [reduccion_sorbato_kg_ano, dosis_optim_g_kg_calculada, dosis_conv_g_kg]
  · norm_num [dosis_conv_g_kg]

/-- C2: the cost-savings metric equals the reported sorbate mass reduction
multiplied by the fixed sorbate price of 5 USD/kg from the data table. -/
theorem C2_ahorro_es_reduccion_por_precio (p r : ℚ) :
    ahorro_costos_sorbato_usd_ano p r = reduccion_sorbato_kg_ano p r * precio_sorbato_usd_kg ∧
      precio_sorbato_usd_kg = 5 := by
  constructor
  · simp only [ahorro_costos_sorbato_usd_ano, precio_sorbato]
  · simp only [precio_sorbato_usd_kg]

/-- C3: the avoided PDA tonnage equals (d/100)·P, and the avoided-emissions
metric equals that tonnage times 12000 km times 0.01 tCO₂e/ton-km, i.e. 120
times the tonnage. -/
theorem C3_pda_y_gei (p d : ℚ) :
    pda_evitada_ton_ano p d = d / 100 * p ∧
      gei_evitados_tco2e_ano p d =
        pda_evitada_ton_ano p d * (distancia_transporte_km * factor_emision_co2e_ton_km) ∧
      distancia_transporte_km = 12000 ∧
      factor_emision_co2e_ton_km = 1 / 100 ∧
      gei_evitados_tco2e_ano p d = 120 * pda_evitada_ton_ano p d := by
  refine ⟨rfl, rfl, rfl, rfl, ?_⟩
  simp only [gei_evitados_tco2e_ano, distancia_transporte_km, factor_emision_co2e_ton_km]
  ring

/-- C4: the avoided-revenue metric equals the avoided tonnage times the
slider price, and it is not in general the tonnage times the table price
3200 (at p = 2500, d = 1, slider price 2000 the two differ). -/
theorem C4_perdidas_usa_precio_slider (p d pr : ℚ) :
    perdidas_economicas_pda_evitada_usd_ano p d pr = pda_evitada_ton_ano p d * pr ∧
      perdidas_economicas_pda_evitada_usd_ano 2500 1 2000 ≠
        pda_evitada_ton_ano 2500 1 * precio_ciruela_exportacion_usd_ton_tabla := by
  constructor
  · rfl
  · norm_num [perdidas_economicas_pda_evitada_usd_ano, pda_evitada_ton_ano,
      precio_ciruela_exportacion_usd_ton_tabla]

/-- C5: the five metrics are a deterministic function of exactly the four
sliders: evaluations with equal slider values give equal metric tuples. -/
theorem C5_determinismo (i j : Inputs)
    (h1 : i.produccion_anual = j.produccion_anual)
    (h2 : i.porcentaje_reduccion_sorbato = j.porcentaje_reduccion_sorbato)
    (h3 : i.porcentaje_devoluciones_evitadas = j.porcentaje_devoluciones_evitadas)
    (h4 : i.precio_ciruela = j.precio_ciruela) :
    metrics i = metrics j := by
  cases i
  cases j
  simp only at h1 h2 h3 h4
  subst h1
  subst h2
  subst h3
  subst h4
  rfl

/-- C5 witness: applying determinism at the default slider values. -/
theorem C5_determinismo_witness :
    metrics ⟨2500, 40, 1, 3200⟩ = metrics ⟨2500, 40, 1, 3200⟩ :=
  C5_determinismo ⟨2500, 40, 1, 3200⟩ ⟨2500, 40, 1, 3200⟩ rfl rfl rfl rfl

/-- C6: each metric formula is linear and homogeneous in each of its slider
inputs separately: zero at zero and scaling by `c` scales the output by `c`,
for production in all five metrics, the sorbate percentage in the two sorbate
metrics, the PDA percentage in the three PDA metrics, and the export price in
the revenue-loss metric. -/
theorem C6_linealidad (c p r d pr : ℚ) :
    reduccion_sorbato_kg_ano (c * p) r = c * reduccion_sorbato_kg_ano p r ∧
    reduccion_sorbato_kg_ano 0 r = 0 ∧
    reduccion_sorbato_kg_ano p (c * r) = c * reduccion_sorbato_kg_ano p r ∧
    reduccion_sorbato_kg_ano p 0 = 0 ∧
    ahorro_costos_sorbato_usd_ano (c * p) r = c * ahorro_costos_sorbato_usd_ano p r ∧
    ahorro_costos_sorbato_usd_ano 0 r = 0 ∧
    ahorro_costos_sorbato_usd_ano p (c * r) = c * ahorro_costos_sorbato_usd_ano p r ∧
    ahorro_costos_sorbato_usd_ano p 0 = 0 ∧
    pda_evitada_ton_ano (c * p) d = c * pda_evitada_ton_ano p d ∧
    pda_evitada_ton_ano 0 d = 0 ∧
    pda_evitada_ton_ano p (c * d) = c * pda_evitada_ton_ano p d ∧
    pda_evitada_ton_ano p 0 = 0 ∧
    gei_evitados_tco2e_ano (c * p) d = c * gei_evitados_tco2e_ano p d ∧
    gei_evitados_tco2e_ano 0 d = 0 ∧
    gei_evitados_tco2e_ano p (c * d) = c * gei_evitados_tco2e_ano p d ∧
    gei_evitados_tco2e_ano p 0 = 0 ∧
    perdidas_economicas_pda_evitada_usd_ano (c * p) d pr =
      c * perdidas_economicas_pda_evitada_usd_ano p d pr ∧
    perdidas_economicas_pda_evitada_usd_ano 0 d pr = 0 ∧
    perdidas_economicas_pda_evitada_usd_ano p (c * d) pr =
      c * perdidas_economicas_pda_evitada_usd_ano p d pr ∧
    perdidas_economicas_pda_evitada_usd_ano p 0 pr = 0 ∧
    perdidas_economicas_pda_evitada_usd_ano p d (c * pr) =
      c * perdidas_economicas_pda_evitada_usd_ano p d pr ∧
    perdidas_economicas_pda_evitada_usd_ano p d 0 = 0 := by
  repeat' apply And.intro
  all_goals
    simp only [reduccion_sorbato_kg_ano, dosis_optim_g_kg_calculada, dosis_conv_g_kg,
      ahorro_costos_sorbato_usd_ano, precio_sorbato, precio_sorbato_usd_kg,
      pda_evitada_ton_ano, gei_evitados_tco2e_ano, distancia_transporte_km,
      factor_emision_co2e_ton_km, perdidas_economicas_pda_evitada_usd_ano]
  all_goals ring

/-- C7: in each of the three charts the 'Línea Base' bar is 0 and the
'Proyección' bar is the corresponding computed metric. -/
theorem C7_barras_base_y_proyeccion (p r d pr : ℚ) :
    sorbato_values p r = [0, reduccion_sorbato_kg_ano p r] ∧
    pda_values p d = [0, pda_evitada_ton_ano p d] ∧
    perdidas_eco_values p d pr = [0, perdidas_economicas_pda_evitada_usd_ano p d pr] := by
  refine ⟨?_, ?_, ?_⟩
  · simp only [sorbato_values, reduccion_sorbato_base_ejemplo]
  · simp only [pda_values, pda_evitada_base_ejemplo]
  · simp only [perdidas_eco_values, perdidas_economicas_pda_base_ejemplo]

/-- C8: each downloadable PNG figure plots exactly the same pair of bar
values as the corresponding subplot of the on-screen composite figure. -/
theorem C8_figuras_descargables_coinciden (p r d pr : ℚ) :
    fig_sorbato_bars p r = composite_sorbato_bars p r ∧
    fig_pda_bars p d = composite_pda_bars p d ∧
    fig_perdidas_eco_bars p d pr = composite_perdidas_bars p d pr :=
  ⟨rfl, rfl, rfl⟩

/-- The sign and vanishing behaviour of the five metrics claimed for slider
values inside the declared ranges. -/
def metricsInvariant (p r d pr : ℚ) : Prop :=
  0 ≤ reduccion_sorbato_kg_ano p r ∧
  0 ≤ ahorro_costos_sorbato_usd_ano p r ∧
  0 ≤ pda_evitada_ton_ano p d ∧
  0 ≤ gei_evitados_tco2e_ano p d ∧
  0 ≤ perdidas_economicas_pda_evitada_usd_ano p d pr ∧
  0 < reduccion_sorbato_kg_ano p r ∧
  0 < ahorro_costos_sorbato_usd_ano p r ∧
  (pda_evitada_ton_ano p d = 0 ↔ d = 0) ∧
  (gei_evitados_tco2e_ano p d = 0 ↔ d = 0) ∧
  (perdidas_economicas_pda_evitada_usd_ano p d pr = 0 ↔ d = 0)

/-- C9: inside the declared slider ranges all five metrics are non-negative,
the two sorbate metrics are strictly positive, and the three PDA metrics
vanish exactly when the PDA slider is 0. -/
theorem C9_invariantes_en_rangos (p r d pr : ℚ)
    (hp1 : 100 ≤ p) (hp2 : p ≤ 5000)
    (hr1 : 20 ≤ r) (hr2 : r ≤ 60)
    (hd1 : 0 ≤ d) (hd2 : d ≤ 5)
    (hpr1 : 2000 ≤ pr) (hpr2 : pr ≤ 5000) :
    metricsInvariant p r d pr := by
  have hp : 0 < p := lt_of_lt_of_le (by norm_num) hp1
  have hr : 0 < r := lt_of_lt_of_le (by norm_num) hr1
  have hpr : 0 < pr := lt_of_lt_of_le (by norm_num) hpr1
  have hp0 : p ≠ 0 := ne_of_gt hp
  have hpr0 : pr ≠ 0 := ne_of_gt hpr
  have hred : reduccion_sorbato_kg_ano p r = r * p / 25000 := by
    simp only [reduccion_sorbato_kg_ano, dosis_optim_g_kg_calculada, dosis_conv_g_kg]
    ring
  have hah : ahorro_costos_sorbato_usd_ano p r = r * p / 5000 := by
    simp only [ahorro_costos_sorbato_usd_ano, precio_sorbato, precio_sorbato_usd_kg, hred]
    ring
  have hpda : pda_evitada_ton_ano p d = d * p / 100 := by
    simp only [pda_evitada_ton_ano]
    ring
  have hgei : gei_evitados_tco2e_ano p d = d * p * (6 / 5) := by
    simp only [gei_evitados_tco2e_ano, pda_evitada_ton_ano, distancia_transporte_km,
      factor_emision_co2e_ton_km]
    ring
  have hper : perdidas_economicas_pda_evitada_usd_ano p d pr = d * p * pr / 100 := by
    simp only [perdidas_economicas_pda_evitada_usd_ano, pda_evitada_ton_ano]
    ring
  have hd0 : d * p = 0 ↔ d = 0 := by
    constructor
    · intro h
      rcases mul_eq_zero.mp h with h' | h'
      · exact h'
      · exact absurd h' hp0
    · intro h
      rw [h, zero_mul]
  refine ⟨?_, ?_, ?_, ?_, ?_, ?_, ?_, ?_, ?_, ?_⟩
  · rw [hred]; positivity
  · rw [hah]; positivity
  · rw [hpda]; positivity
  · rw [hgei]; positivity
  · rw [hper]; positivity
  · rw [hred]; positivity
  · rw [hah]; positivity
  · rw [hpda, div_eq_zero_iff, hd0]
    norm_num
  · rw [hgei, mul_eq_zero, hd0]
    norm_num
  · rw [hper, div_eq_zero_iff, mul_eq_zero, hd0]
    norm_num [hpr0]

/-- C9 witness: the invariant holds at the default slider values. -/
theorem C9_invariantes_en_rangos_witness : metricsInvariant 2500 40 1 3200 :=
  C9_invariantes_en_rangos 2500 40 1 3200 (by norm_num) (by norm_num) (by norm_num)
    (by norm_num) (by norm_num) (by norm_num) (by norm_num) (by norm_num)

/-- C10: a logo fetch/decode failure is caught and reported as an error
message, and the metrics, charts and download buttons of the page are the
same for every fetch outcome; a logo failure never changes or aborts them. -/
theorem C10_fallo_logo_aislado (i : Inputs) (res res' : Except LogoFailure (Nat × Nat)) :
    (renderPage i res).metricValues = (renderPage i res').metricValues ∧
    (renderPage i res).charts = (renderPage i res').charts ∧
    (renderPage i res).downloadNames = (renderPage i res').downloadNames ∧
    ∀ f : LogoFailure,
      (renderPage i (Except.error f)).logoSection = LogoSection.errorMessage (logoErrorText f) :=
  ⟨rfl, rfl, rfl, fun _ => rfl⟩
